import Mathlib

/-!
Verification development for the `teach-me` VS Code extension
(`src/extension.ts`).

The extension-host side is the class `ErrorAnalyzerViewProvider`, whose only
state is the optional reference `_view` to the resolved webview, and whose
only operation with observable behaviour is the private method
`_analyzeCurrentFile` (lines 49-88 of `extension.ts`): it reads the active
text editor, queries the host's diagnostics for the active document, filters
them to error severity, formats them into a text block and posts the block to
the webview.  The webview side (the inline script of `_getHtmlForWebview`)
additionally runs a model-initialization retry loop (`initModel`).

The embedding below is a direct shallow translation of that code: VS Code API
values (`Position`, `Range`, `Diagnostic`, `DiagnosticSeverity`, the active
editor and its document) become plain structures, `postMessage` calls become
a returned list of messages in posting order, and the mutation of the
webview script's variables becomes a state-passing step function.
-/

namespace ErrorAnalyzer

/-- A 0-based position in a document, as in `vscode.Position`. -/
structure Position where
  line : Nat
  character : Nat
  deriving DecidableEq

/-- A range in a document, as in `vscode.Range`.  The source field `end` is a
Lean keyword, so it is named `stop` here. -/
structure Range where
  start : Position
  stop : Position
  deriving DecidableEq

/-- The four members of `vscode.DiagnosticSeverity`
(Error = 0, Warning = 1, Information = 2, Hint = 3). -/
inductive DiagnosticSeverity where
  | Error
  | Warning
  | Information
  | Hint
  deriving DecidableEq

/-- A diagnostic, restricted to the fields `_analyzeCurrentFile` reads:
`range`, `severity` and `message`. -/
structure Diagnostic where
  range : Range
  severity : DiagnosticSeverity
  message : String
  deriving DecidableEq

/-- The active document as `_analyzeCurrentFile` uses it: its `fileName`, and
`lineAt n` giving the text of the 0-based line `n`
(`document.lineAt(n).text`), supplied by the host editor. -/
structure Document where
  fileName : String
  lineAt : Nat → String

/-- The active text editor (`vscode.TextEditor`); only its `document` field
is read. -/
structure TextEditor where
  document : Document

/-- The resolved webview view stored in `_view`.  Its contents are irrelevant
to the analyzed logic; only its presence matters. -/
inductive WebviewView where
  | mk
  deriving DecidableEq

/-- The extension-host provider state: the single optional reference
`private _view?: vscode.WebviewView` (line 22 of `extension.ts`). -/
structure ErrorAnalyzerViewProvider where
  _view : Option WebviewView
  deriving DecidableEq

/-- A message posted from the extension host to the webview via
`this._view.webview.postMessage({...})`: either a `showResult` with a `text`
payload or an `analyzeWithAI` with an `errorContext` payload. -/
inductive WebviewMessage where
  | showResult (text : String)
  | analyzeWithAI (errorContext : String)
  deriving DecidableEq

/-- Model of JavaScript's `String.prototype.trim()` as applied at line 81
(`line.text.trim()`): whitespace is removed from both ends of the string. -/
def jsTrim (s : String) : String :=
  String.mk ((((s.data.dropWhile Char.isWhitespace).reverse).dropWhile
    Char.isWhitespace).reverse)

/-- Model of Node's `path.basename` as applied at line 77: trailing
separators are dropped, then everything after the last separator is kept.
(For the lone path "/" Node returns "/" while this model returns ""; that
input never names a file and does not arise in any claim.) -/
def basename (p : String) : String :=
  String.mk ((((p.data.reverse).dropWhile (fun c => c = '/')).takeWhile
    (fun c => c ≠ '/')).reverse)

/-- The two lines appended to `errorContext` for a single error `err` at
0-based index `idx` (lines 79-81 of `extension.ts`):
the `Error ${idx + 1}: ${err.message}` line followed by the
`Line ${err.range.start.line + 1}: ${line.text.trim()}` line, where `line`
is `document.lineAt(err.range.start.line)`. -/
def errorBlock (document : Document) (idx : Nat) (err : Diagnostic) : String :=
  s!"Error {idx + 1}: {err.message}\n" ++
    s!"Line {err.range.start.line + 1}: {jsTrim (document.lineAt err.range.start.line)}\n\n"

/-- The `errors.forEach((err, idx) => ...)` loop of lines 78-82, accumulating
blocks into the running `errorContext` string. -/
def appendBlocks (document : Document) : Nat → List Diagnostic → String → String
  | _, [], errorContext => errorContext
  | idx, err :: rest, errorContext =>
      appendBlocks document (idx + 1) rest (errorContext ++ errorBlock document idx err)

/-- The full `errorContext` built by lines 77-82: the
`File: ${path.basename(document.fileName)}` header followed by one block per
error, in diagnostic order. -/
def buildErrorContext (document : Document) (errors : List Diagnostic) : String :=
  appendBlocks document 0 errors s!"File: {basename document.fileName}\n\n"

/-- Specification-side view of the loop of lines 78-82: the list of per-error
blocks, indices counting up from `idx`.  Used to state how `buildErrorContext`
decomposes; it is proved equal to the accumulating loop, never assumed. -/
def blocksFrom (document : Document) : Nat → List Diagnostic → List String
  | _, [] => []
  | idx, err :: rest => errorBlock document idx err :: blocksFrom document (idx + 1) rest

/-- The method `_analyzeCurrentFile` (lines 49-88): given the provider state,
the host's `vscode.window.activeTextEditor`, and the host's answer to
`vscode.languages.getDiagnostics(document.uri)`, it returns the provider
state after the call together with the list of messages posted to the
webview, in posting order. -/
def _analyzeCurrentFile (self : ErrorAnalyzerViewProvider)
    (activeTextEditor : Option TextEditor) (getDiagnostics : List Diagnostic) :
    ErrorAnalyzerViewProvider × List WebviewMessage :=
  match self._view with
  | none => (self, [])
  | some _ =>
    match activeTextEditor with
    | none =>
        (self, [WebviewMessage.showResult "No active file found. Please open a file first."])
    | some editor =>
        let document := editor.document
        let diagnostics := getDiagnostics
        let errors := diagnostics.filter fun d => d.severity == DiagnosticSeverity.Error
        if errors.length = 0 then
          (self, [WebviewMessage.showResult "No errors found in the current file! 🎉"])
        else
          (self, [WebviewMessage.analyzeWithAI (buildErrorContext document errors)])

/-- `MAX_ATTEMPTS` of the webview script (line 184). -/
def MAX_ATTEMPTS : Nat := 3

/-- Which handler is installed as the analyze button's `onclick`: the
original `analyzeErrors` sender, or the retry closure installed after the
final failed attempt. -/
inductive ButtonHandler where
  | analyzeErrors
  | retryInit
  deriving DecidableEq

/-- The webview-script state touched by the `initModel` retry loop
(lines 181-239): the `isInitialized` and `initAttempts` variables, the
analyze button's label, disabled flag and `onclick` handler, and the delay of
the `setTimeout(() => initModel(), 2000)` retry currently scheduled, if any. -/
structure ScriptState where
  isInitialized : Bool
  initAttempts : Nat
  buttonText : String
  buttonDisabled : Bool
  buttonOnClick : ButtonHandler
  pendingRetryDelayMs : Option Nat
  deriving DecidableEq

/-- The script state when the webview loads: not initialized, zero attempts,
the button labeled "Analyze Errors" with its original handler, no retry
scheduled. -/
def initialScriptState : ScriptState :=
  { isInitialized := false
    initAttempts := 0
    buttonText := "Analyze Errors"
    buttonDisabled := false
    buttonOnClick := ButtonHandler.analyzeErrors
    pendingRetryDelayMs := none }

/-- One run of `initModel` (lines 186-239).  Running consumes any scheduled
retry.  `pipelineSucceeds` abstracts whether the awaited third-party
`pipeline(...)` call returns normally or throws.  On failure with
`initAttempts < MAX_ATTEMPTS` a retry is scheduled after 2000 ms and the
button stays disabled; on the final failure the button is re-enabled,
relabeled "Retry Loading Model", and its `onclick` becomes the retry
closure. -/
def initModel (s : ScriptState) (pipelineSucceeds : Bool) : ScriptState :=
  if s.isInitialized then s
  else
    let s1 := { s with initAttempts := s.initAttempts + 1
                       buttonDisabled := true
                       pendingRetryDelayMs := none }
    if pipelineSucceeds then
      { s1 with isInitialized := true, buttonDisabled := false }
    else if s1.initAttempts < MAX_ATTEMPTS then
      { s1 with pendingRetryDelayMs := some 2000 }
    else
      { s1 with buttonDisabled := false
                buttonText := "Retry Loading Model"
                buttonOnClick := ButtonHandler.retryInit }

/-- Clicking the analyze button while the retry closure is installed
(lines 231-236): `initAttempts` is reset to 0, the label and handler are
restored, and `initModel` runs again. -/
def retryClick (s : ScriptState) (pipelineSucceeds : Bool) : ScriptState :=
  initModel
    { s with initAttempts := 0
             buttonText := "Analyze Errors"
             buttonOnClick := ButtonHandler.analyzeErrors }
    pipelineSucceeds

/-- The script state after the first failed load attempt. -/
def afterFail1 : ScriptState := initModel initialScriptState false

/-- The script state after two failed load attempts. -/
def afterFail2 : ScriptState := initModel afterFail1 false

/-- The script state after the third (final) failed load attempt. -/
def afterFail3 : ScriptState := initModel afterFail2 false

/-! Concrete sample values, used by the witness theorems below. -/

/-- A sample document with two nonempty lines. -/
def sampleDoc : Document :=
  { fileName := "/home/user/project/main.ts"
    lineAt := fun n =>
      if n = 0 then "  const x = y;  "
      else if n = 1 then "console.log(x);"
      else "" }

/-- A single-line range on line 0. -/
def sampleRange : Range :=
  { start := { line := 0, character := 2 }, stop := { line := 0, character := 7 } }

/-- A range spanning lines 0-1. -/
def sampleMultiRange : Range :=
  { start := { line := 0, character := 0 }, stop := { line := 1, character := 3 } }

/-- An error-severity diagnostic on line 0. -/
def sampleErrorDiag : Diagnostic :=
  { range := sampleRange, severity := DiagnosticSeverity.Error, message := "y is not defined" }

/-- A warning-severity diagnostic on line 0. -/
def sampleWarnDiag : Diagnostic :=
  { range := sampleRange, severity := DiagnosticSeverity.Warning, message := "x is unused" }

/-- An error-severity diagnostic whose range spans lines 0-1. -/
def sampleMultiDiag : Diagnostic :=
  { range := sampleMultiRange, severity := DiagnosticSeverity.Error, message := "span error" }

/-- An editor showing `sampleDoc`. -/
def sampleEditor : TextEditor :=
  { document := sampleDoc }

/-- A second document agreeing with `sampleDoc` on line 0 but not on line 1. -/
def sampleDocAlt : Document :=
  { fileName := "/home/user/project/main.ts"
    lineAt := fun n =>
      if n = 0 then "  const x = y;  "
      else "something entirely different" }

/-- A provider whose view has been resolved. -/
def sampleProvider : ErrorAnalyzerViewProvider :=
  { _view := some WebviewView.mk }

/-- A provider whose view has not been resolved. -/
def unresolvedProvider : ErrorAnalyzerViewProvider :=
  { _view := none }

/-! Helper lemmas shared by the claim theorems. -/

theorem toString_string (s : String) : toString s = s := rfl

theorem append_empty_str (s : String) : s ++ "" = s := by
  cases s with
  | mk d => exact congrArg String.mk (List.append_nil d)

theorem join_cons (s : String) (l : List String) :
    String.join (s :: l) = s ++ String.join l := by
  cases s with
  | mk d =>
    simp only [String.join_eq]
    apply congrArg
    simp

theorem appendBlocks_eq (document : Document) (errors : List Diagnostic) :
    ∀ (idx : Nat) (acc : String),
      appendBlocks document idx errors acc =
        acc ++ String.join (blocksFrom document idx errors) := by
  induction errors with
  | nil =>
      intro idx acc
      exact (append_empty_str acc).symm
  | cons err rest ih =>
      intro idx acc
      simp only [appendBlocks, blocksFrom]
      rw [ih (idx + 1) (acc ++ errorBlock document idx err), join_cons,
        String.append_assoc]

theorem blocksFrom_length (document : Document) :
    ∀ (errors : List Diagnostic) (idx : Nat),
      (blocksFrom document idx errors).length = errors.length := by
  intro errors
  induction errors with
  | nil => intro idx; rfl
  | cons err rest ih =>
      intro idx
      simp only [blocksFrom, List.length_cons, ih (idx + 1)]

theorem blocksFrom_get (document : Document) :
    ∀ (errors : List Diagnostic) (idx i : Nat) (hi : i < errors.length)
      (hi' : i < (blocksFrom document idx errors).length),
      (blocksFrom document idx errors).get ⟨i, hi'⟩ =
        errorBlock document (idx + i) (errors.get ⟨i, hi⟩) := by
  intro errors
  induction errors with
  | nil =>
      intro idx i hi _
      exact absurd hi (by simp)
  | cons err rest ih =>
      intro idx i hi hi'
      cases i with
      | zero => simp [blocksFrom]
      | succ n =>
          have hn : n < rest.length := Nat.lt_of_succ_lt_succ hi
          have hn' : n < (blocksFrom document (idx + 1) rest).length := by
            rw [blocksFrom_length]
            exact hn
          have harith : idx + (n + 1) = (idx + 1) + n := by omega
          rw [harith]
          exact ih (idx + 1) n hn hn'

theorem join_split_at :
    ∀ (l : List String) (i : Nat) (hi : i < l.length),
      ∃ pre post, String.join l = pre ++ l.get ⟨i, hi⟩ ++ post := by
  intro l
  induction l with
  | nil =>
      intro i hi
      exact absurd hi (by simp)
  | cons s rest ih =>
      intro i hi
      cases i with
      | zero =>
          refine ⟨"", String.join rest, ?_⟩
          rw [join_cons]
          rfl
      | succ n =>
          have hn : n < rest.length := Nat.lt_of_succ_lt_succ hi
          obtain ⟨pre, post, hsplit⟩ := ih n hn
          refine ⟨s ++ pre, post, ?_⟩
          show String.join (s :: rest) = (s ++ pre) ++ rest.get ⟨n, hn⟩ ++ post
          rw [join_cons, hsplit]
          simp only [String.append_assoc]

theorem errorBlock_eq (document : Document) (idx : Nat) (err : Diagnostic) :
    errorBlock document idx err =
      "Error " ++ toString (idx + 1) ++ ": " ++ err.message ++ "\n" ++
        "Line " ++ toString (err.range.start.line + 1) ++ ": " ++
        jsTrim (document.lineAt err.range.start.line) ++ "\n\n" := by
  simp only [errorBlock, String.append_assoc, toString_string]

theorem buildErrorContext_eq (document : Document) (errors : List Diagnostic) :
    buildErrorContext document errors =
      "File: " ++ basename document.fileName ++ "\n\n" ++
        String.join (blocksFrom document 0 errors) := by
  rw [buildErrorContext, appendBlocks_eq]
  simp only [String.append_assoc, toString_string]

theorem buildErrorContext_split (document : Document) (errors : List Diagnostic)
    (i : Nat) (hi : i < errors.length) :
    ∃ pre post, buildErrorContext document errors =
      pre ++ errorBlock document i (errors.get ⟨i, hi⟩) ++ post := by
  have hi' : i < (blocksFrom document 0 errors).length := by
    rw [blocksFrom_length]
    exact hi
  obtain ⟨pre, post, hsplit⟩ := join_split_at (blocksFrom document 0 errors) i hi'
  refine ⟨("File: " ++ basename document.fileName ++ "\n\n") ++ pre, post, ?_⟩
  rw [buildErrorContext_eq, hsplit, blocksFrom_get document errors 0 i hi hi']
  simp only [String.append_assoc, Nat.zero_add]

theorem errorBlock_congr (d₁ d₂ : Document) (idx : Nat) (err : Diagnostic)
    (h : d₁.lineAt err.range.start.line = d₂.lineAt err.range.start.line) :
    errorBlock d₁ idx err = errorBlock d₂ idx err := by
  simp [errorBlock, h]

theorem blocksFrom_congr (d₁ d₂ : Document) :
    ∀ (errors : List Diagnostic) (idx : Nat),
      (∀ e ∈ errors, d₁.lineAt e.range.start.line = d₂.lineAt e.range.start.line) →
      blocksFrom d₁ idx errors = blocksFrom d₂ idx errors := by
  intro errors
  induction errors with
  | nil => intro idx _; rfl
  | cons err rest ih =>
      intro idx h
      simp only [blocksFrom]
      rw [errorBlock_congr d₁ d₂ idx err (h err (by simp)),
        ih (idx + 1) (fun e he => h e (by simp [he]))]

theorem buildErrorContext_congr (d₁ d₂ : Document) (errors : List Diagnostic)
    (hname : d₁.fileName = d₂.fileName)
    (h : ∀ e ∈ errors, d₁.lineAt e.range.start.line = d₂.lineAt e.range.start.line) :
    buildErrorContext d₁ errors = buildErrorContext d₂ errors := by
  rw [buildErrorContext_eq, buildErrorContext_eq, hname,
    blocksFrom_congr d₁ d₂ errors 0 h]

/-- C1: with an active editor present, the report is built from exactly the
error-severity diagnostics: every diagnostic kept by the filter has severity
`Error` (so every `Warning`, `Information` or `Hint` diagnostic is excluded),
every `Error` diagnostic of the document is kept, and the posted report is
formatted from precisely that filtered list. -/
theorem analyze_filters_to_error_severity (self : ErrorAnalyzerViewProvider)
    (v : WebviewView) (hv : self._view = some v) (editor : TextEditor)
    (ds : List Diagnostic) :
    (∀ d ∈ ds.filter (fun d => d.severity == DiagnosticSeverity.Error),
        d.severity = DiagnosticSeverity.Error)
    ∧ (∀ d ∈ ds, d.severity = DiagnosticSeverity.Error →
        d ∈ ds.filter (fun d => d.severity == DiagnosticSeverity.Error))
    ∧ (ds.filter (fun d => d.severity == DiagnosticSeverity.Error) ≠ [] →
        (_analyzeCurrentFile self (some editor) ds).2 =
          [WebviewMessage.analyzeWithAI (buildErrorContext editor.document
            (ds.filter fun d => d.severity == DiagnosticSeverity.Error))]) := by
  refine ⟨?_, ?_, ?_⟩
  · intro d hd
    simpa using (List.mem_filter.mp hd).2
  · intro d hd hsev
    exact List.mem_filter.mpr ⟨hd, by simp [hsev]⟩
  · intro hne
    have hlen : ¬ (ds.filter fun d => d.severity == DiagnosticSeverity.Error).length = 0 := by
      simpa [List.length_eq_zero] using hne
    simp [_analyzeCurrentFile, hv, hlen]

/-- Witness for C1 at a concrete state: a resolved view, `sampleEditor`
active, and a diagnostics list holding one error and one warning. -/
theorem analyze_filters_to_error_severity_witness :
    sampleProvider._view = some WebviewView.mk
    ∧ ([sampleErrorDiag, sampleWarnDiag].filter
        (fun d => d.severity == DiagnosticSeverity.Error) ≠ [])
    ∧ (_analyzeCurrentFile sampleProvider (some sampleEditor)
        [sampleErrorDiag, sampleWarnDiag]).2 =
      [WebviewMessage.analyzeWithAI (buildErrorContext sampleEditor.document
        ([sampleErrorDiag, sampleWarnDiag].filter
          fun d => d.severity == DiagnosticSeverity.Error))] :=
  ⟨by decide, by decide,
    (analyze_filters_to_error_severity sampleProvider WebviewView.mk (by decide)
      sampleEditor [sampleErrorDiag, sampleWarnDiag]).2.2 (by decide)⟩

/-- C5: when the view is resolved, an editor is active and at least one
error-severity diagnostic exists, `_analyzeCurrentFile` posts exactly one
message, with command `analyzeWithAI`, carrying the formatted text block. -/
theorem analyze_posts_exactly_one_ai_message (self : ErrorAnalyzerViewProvider)
    (v : WebviewView) (hv : self._view = some v) (editor : TextEditor)
    (ds : List Diagnostic)
    (hne : ds.filter (fun d => d.severity == DiagnosticSeverity.Error) ≠ []) :
    (_analyzeCurrentFile self (some editor) ds).2 =
      [WebviewMessage.analyzeWithAI
        (buildErrorContext editor.document
          (ds.filter fun d => d.severity == DiagnosticSeverity.Error))] := by
  have hlen : ¬ (ds.filter fun d => d.severity == DiagnosticSeverity.Error).length = 0 := by
    simpa [List.length_eq_zero] using hne
  simp [_analyzeCurrentFile, hv, hlen]

/-- Witness for C5 at a concrete state with one error-severity diagnostic. -/
theorem analyze_posts_exactly_one_ai_message_witness :
    sampleProvider._view = some WebviewView.mk
    ∧ ([sampleErrorDiag].filter (fun d => d.severity == DiagnosticSeverity.Error) ≠ [])
    ∧ (_analyzeCurrentFile sampleProvider (some sampleEditor) [sampleErrorDiag]).2 =
      [WebviewMessage.analyzeWithAI
        (buildErrorContext sampleEditor.document
          ([sampleErrorDiag].filter fun d => d.severity == DiagnosticSeverity.Error))] :=
  ⟨by decide, by decide,
    analyze_posts_exactly_one_ai_message sampleProvider WebviewView.mk (by decide)
      sampleEditor [sampleErrorDiag] (by decide)⟩

/-- C7: the analyze operation's only effect is posting messages: it returns
the provider state unchanged (in particular the stored `_view` reference),
and posts at most one fire-and-forget message, awaiting no acknowledgment. -/
theorem analyze_leaves_state_unchanged (self : ErrorAnalyzerViewProvider)
    (activeTextEditor : Option TextEditor) (ds : List Diagnostic) :
    (_analyzeCurrentFile self activeTextEditor ds).1 = self
    ∧ (_analyzeCurrentFile self activeTextEditor ds).2.length ≤ 1 := by
  cases hview : self._view with
  | none => simp [_analyzeCurrentFile, hview]
  | some v =>
      cases activeTextEditor with
      | none => simp [_analyzeCurrentFile, hview]
      | some editor =>
          by_cases h : (ds.filter fun d => d.severity == DiagnosticSeverity.Error).length = 0
          · simp [_analyzeCurrentFile, hview, h]
          · simp [_analyzeCurrentFile, hview, h]

/-- C8: while `_view` is still unresolved, `_analyzeCurrentFile` returns
immediately: no message is posted, no error is raised, and the state is
unchanged, whatever the editor and diagnostics are. -/
theorem analyze_without_view_is_noop (self : ErrorAnalyzerViewProvider)
    (activeTextEditor : Option TextEditor) (ds : List Diagnostic)
    (h : self._view = none) :
    _analyzeCurrentFile self activeTextEditor ds = (self, []) := by
  simp [_analyzeCurrentFile, h]

/-- Witness for C8 at a concrete state with an unresolved view, an active
editor and a nonempty diagnostics list. -/
theorem analyze_without_view_is_noop_witness :
    unresolvedProvider._view = none
    ∧ _analyzeCurrentFile unresolvedProvider (some sampleEditor) [sampleErrorDiag] =
        (unresolvedProvider, []) :=
  ⟨by decide,
    analyze_without_view_is_noop unresolvedProvider (some sampleEditor)
      [sampleErrorDiag] (by decide)⟩

/-- C2: for a non-empty error list, the formatted text is the file header
followed by the concatenation of exactly one block per error, in diagnostic
order; the block at position `i` is labeled `Error i+1` and shows
`Line (start.line)+1`, converting the 0-based start line to 1-based. -/
theorem formatted_text_one_block_per_error (document : Document)
    (errors : List Diagnostic) (hne : errors ≠ []) :
    buildErrorContext document errors =
        "File: " ++ basename document.fileName ++ "\n\n" ++
          String.join (blocksFrom document 0 errors)
    ∧ (blocksFrom document 0 errors).length = errors.length
    ∧ (∀ i (hi : i < errors.length) (hi' : i < (blocksFrom document 0 errors).length),
        (blocksFrom document 0 errors).get ⟨i, hi'⟩ =
          "Error " ++ toString (i + 1) ++ ": " ++ (errors.get ⟨i, hi⟩).message ++ "\n" ++
            "Line " ++ toString ((errors.get ⟨i, hi⟩).range.start.line + 1) ++ ": " ++
            jsTrim (document.lineAt (errors.get ⟨i, hi⟩).range.start.line) ++ "\n\n") := by
  refine ⟨buildErrorContext_eq document errors, blocksFrom_length document errors 0, ?_⟩
  intro i hi hi'
  rw [blocksFrom_get document errors 0 i hi hi', Nat.zero_add]
  exact errorBlock_eq document i (errors.get ⟨i, hi⟩)

/-- Witness for C2 at a concrete two-error list. -/
theorem formatted_text_one_block_per_error_witness :
    ([sampleErrorDiag, sampleMultiDiag] : List Diagnostic) ≠ []
    ∧ (blocksFrom sampleDoc 0 [sampleErrorDiag, sampleMultiDiag]).length =
        ([sampleErrorDiag, sampleMultiDiag] : List Diagnostic).length :=
  ⟨by decide,
    (formatted_text_one_block_per_error sampleDoc [sampleErrorDiag, sampleMultiDiag]
      (by decide)).2.1⟩

/-- C3: with the view resolved, the "no active file" message is posted iff
no editor is active, and the "no errors found" message is posted iff an
editor is active and its document has zero error-severity diagnostics; in
both cases no `analyzeWithAI` message is sent (both are ordinary
informational `showResult` posts and the method returns normally). -/
theorem informational_messages_iff (self : ErrorAnalyzerViewProvider)
    (v : WebviewView) (hv : self._view = some v)
    (activeTextEditor : Option TextEditor) (ds : List Diagnostic) :
    (WebviewMessage.showResult "No active file found. Please open a file first."
        ∈ (_analyzeCurrentFile self activeTextEditor ds).2 ↔ activeTextEditor = none)
    ∧ (WebviewMessage.showResult "No errors found in the current file! 🎉"
        ∈ (_analyzeCurrentFile self activeTextEditor ds).2 ↔
          (activeTextEditor ≠ none
            ∧ ds.filter (fun d => d.severity == DiagnosticSeverity.Error) = []))
    ∧ ((activeTextEditor = none
          ∨ ds.filter (fun d => d.severity == DiagnosticSeverity.Error) = []) →
        ∀ t, WebviewMessage.analyzeWithAI t ∉ (_analyzeCurrentFile self activeTextEditor ds).2) := by
  cases activeTextEditor with
  | none =>
      refine ⟨?_, ?_, ?_⟩
      · simp [_analyzeCurrentFile, hv]
      · simp [_analyzeCurrentFile, hv]
      · intro _ t
        simp [_analyzeCurrentFile, hv]
  | some editor =>
      by_cases h : (ds.filter fun d => d.severity == DiagnosticSeverity.Error).length = 0
      · have hnil : ds.filter (fun d => d.severity == DiagnosticSeverity.Error) = [] :=
          List.length_eq_zero.mp h
        refine ⟨?_, ?_, ?_⟩
        · simp [_analyzeCurrentFile, hv, h]
        · simp [_analyzeCurrentFile, hv, h, hnil]
        · intro _ t
          simp [_analyzeCurrentFile, hv, h]
      · have hne : ds.filter (fun d => d.severity == DiagnosticSeverity.Error) ≠ [] := by
          simpa [List.length_eq_zero] using h
        refine ⟨?_, ?_, ?_⟩
        · simp [_analyzeCurrentFile, hv, h]
        · simp [_analyzeCurrentFile, hv, h, hne]
        · intro hcase
          rcases hcase with hnone | hnil
          · exact absurd hnone (by simp)
          · exact absurd hnil hne

/-- Witness for C3 at a concrete state: resolved view and no active editor. -/
theorem informational_messages_iff_witness :
    sampleProvider._view = some WebviewView.mk
    ∧ (WebviewMessage.showResult "No active file found. Please open a file first."
        ∈ (_analyzeCurrentFile sampleProvider none [sampleErrorDiag]).2 ↔
          (none : Option TextEditor) = none) :=
  ⟨by decide,
    (informational_messages_iff sampleProvider WebviewView.mk (by decide)
      none [sampleErrorDiag]).1⟩

/-- C4: the prompt is a single string that contains the file name (in the
header) and, for each error-severity diagnostic, a record consisting of the
1-based line number, the trimmed source-line text, and the diagnostic
message, all concatenated together. -/
theorem prompt_contains_error_records (document : Document)
    (errors : List Diagnostic) (i : Nat) (hi : i < errors.length) :
    (∃ rest, buildErrorContext document errors =
        "File: " ++ basename document.fileName ++ "\n\n" ++ rest)
    ∧ (∃ pre post, buildErrorContext document errors =
        pre ++ ("Error " ++ toString (i + 1) ++ ": " ++ (errors.get ⟨i, hi⟩).message ++ "\n" ++
          "Line " ++ toString ((errors.get ⟨i, hi⟩).range.start.line + 1) ++ ": " ++
          jsTrim (document.lineAt (errors.get ⟨i, hi⟩).range.start.line) ++ "\n\n") ++ post) := by
  refine ⟨⟨String.join (blocksFrom document 0 errors), buildErrorContext_eq document errors⟩, ?_⟩
  obtain ⟨pre, post, hsplit⟩ := buildErrorContext_split document errors i hi
  rw [errorBlock_eq] at hsplit
  exact ⟨pre, post, hsplit⟩

/-- Witness for C4 at a concrete two-error list, at index 1. -/
theorem prompt_contains_error_records_witness :
    1 < ([sampleErrorDiag, sampleMultiDiag] : List Diagnostic).length
    ∧ (∃ rest, buildErrorContext sampleDoc [sampleErrorDiag, sampleMultiDiag] =
        "File: " ++ basename sampleDoc.fileName ++ "\n\n" ++ rest) :=
  ⟨by decide,
    (prompt_contains_error_records sampleDoc [sampleErrorDiag, sampleMultiDiag]
      1 (by decide)).1⟩

/-- C6: model loading is attempted `MAX_ATTEMPTS = 3` times in total; each of
the first two failures schedules an automatic retry after 2000 ms, the third
failure schedules no further retry and turns the button into the
"Retry Loading Model" manual control, and clicking that control resets the
attempt counter and restarts initialization (a fresh attempt 1, again with
the automatic 2000 ms retry live, and able to succeed). -/
theorem initModel_retry_policy :
    MAX_ATTEMPTS = 3
    ∧ afterFail1.initAttempts = 1 ∧ afterFail1.pendingRetryDelayMs = some 2000
    ∧ afterFail1.isInitialized = false
    ∧ afterFail2.initAttempts = 2 ∧ afterFail2.pendingRetryDelayMs = some 2000
    ∧ afterFail2.isInitialized = false
    ∧ afterFail3.initAttempts = 3 ∧ afterFail3.pendingRetryDelayMs = none
    ∧ afterFail3.isInitialized = false
    ∧ afterFail3.buttonText = "Retry Loading Model"
    ∧ afterFail3.buttonDisabled = false
    ∧ afterFail3.buttonOnClick = ButtonHandler.retryInit
    ∧ (retryClick afterFail3 false).initAttempts = 1
    ∧ (retryClick afterFail3 false).pendingRetryDelayMs = some 2000
    ∧ (retryClick afterFail3 false).buttonText = "Analyze Errors"
    ∧ (retryClick afterFail3 true).isInitialized = true := by
  decide

/-- C9: the block emitted for a diagnostic whose range spans several lines
depends only on the text of the line at the range's start (documents that
agree on the start lines of the listed errors produce identical formatted
text, whatever the ranges' later lines hold), and the start line's trimmed
text is what appears in the formatted block. -/
theorem multiline_range_uses_start_line_only (d₁ d₂ : Document)
    (errors : List Diagnostic) (err : Diagnostic) (i : Nat)
    (hi : i < errors.length) (hget : errors.get ⟨i, hi⟩ = err)
    (hml : err.range.start.line < err.range.stop.line)
    (hname : d₁.fileName = d₂.fileName)
    (hagree : ∀ e ∈ errors, d₁.lineAt e.range.start.line = d₂.lineAt e.range.start.line) :
    buildErrorContext d₁ errors = buildErrorContext d₂ errors
    ∧ ∃ pre post, buildErrorContext d₁ errors =
        pre ++ jsTrim (d₁.lineAt err.range.start.line) ++ post := by
  refine ⟨buildErrorContext_congr d₁ d₂ errors hname hagree, ?_⟩
  obtain ⟨pre, post, hsplit⟩ := buildErrorContext_split d₁ errors i hi
  rw [hget, errorBlock_eq] at hsplit
  refine ⟨pre ++ ("Error " ++ toString (i + 1) ++ ": " ++ err.message ++ "\n" ++
      "Line " ++ toString (err.range.start.line + 1) ++ ": "), "\n\n" ++ post, ?_⟩
  rw [hsplit]
  simp only [String.append_assoc]

/-- Witness for C9 at a concrete multi-line-range error and two documents
that agree on the start line but differ on the following line. -/
theorem multiline_range_uses_start_line_only_witness :
    sampleMultiDiag.range.start.line < sampleMultiDiag.range.stop.line
    ∧ sampleDoc.lineAt 1 ≠ sampleDocAlt.lineAt 1
    ∧ buildErrorContext sampleDoc [sampleMultiDiag] =
        buildErrorContext sampleDocAlt [sampleMultiDiag] :=
  ⟨by decide, by decide,
    (multiline_range_uses_start_line_only sampleDoc sampleDocAlt [sampleMultiDiag]
      sampleMultiDiag 0 (by decide) (by decide) (by decide) (by decide)
      (by decide)).1⟩

/-- C10: `_analyzeCurrentFile` is deterministic: two invocations agreeing on
the view state, on active-editor presence, and (when an editor is active) on
the document's file name, line contents and diagnostics list, post identical
message sequences; and the number of posted messages is exactly one when the
view is resolved and zero otherwise. -/
theorem analyze_deterministic (self₁ self₂ : ErrorAnalyzerViewProvider)
    (ed₁ ed₂ : Option TextEditor) (ds₁ ds₂ : List Diagnostic)
    (hview : self₁._view = self₂._view)
    (hed : (ed₁ = none ∧ ed₂ = none) ∨
      (∃ e₁ e₂, ed₁ = some e₁ ∧ ed₂ = some e₂
        ∧ e₁.document.fileName = e₂.document.fileName
        ∧ ∀ n, e₁.document.lineAt n = e₂.document.lineAt n))
    (hds : ds₁ = ds₂) :
    (_analyzeCurrentFile self₁ ed₁ ds₁).2 = (_analyzeCurrentFile self₂ ed₂ ds₂).2
    ∧ (self₁._view = none → (_analyzeCurrentFile self₁ ed₁ ds₁).2.length = 0)
    ∧ (∀ v, self₁._view = some v → (_analyzeCurrentFile self₁ ed₁ ds₁).2.length = 1) := by
  subst hds
  refine ⟨?_, ?_, ?_⟩
  · cases hv : self₁._view with
    | none =>
        have hv2 : self₂._view = none := by rw [← hview]; exact hv
        simp [_analyzeCurrentFile, hv, hv2]
    | some v =>
        have hv2 : self₂._view = some v := by rw [← hview]; exact hv
        rcases hed with ⟨h1, h2⟩ | ⟨e₁, e₂, h1, h2, hfn, hline⟩
        · subst h1; subst h2
          simp [_analyzeCurrentFile, hv, hv2]
        · subst h1; subst h2
          by_cases hlen : (ds₁.filter fun d => d.severity == DiagnosticSeverity.Error).length = 0
          · simp [_analyzeCurrentFile, hv, hv2, hlen]
          · simp [_analyzeCurrentFile, hv, hv2, hlen]
            exact buildErrorContext_congr _ _ _ hfn (fun e _ => hline _)
  · intro h0
    simp [_analyzeCurrentFile, h0]
  · intro v hv
    cases ed₁ with
    | none => simp [_analyzeCurrentFile, hv]
    | some editor =>
        by_cases hlen : (ds₁.filter fun d => d.severity == DiagnosticSeverity.Error).length = 0
        · simp [_analyzeCurrentFile, hv, hlen]
        · simp [_analyzeCurrentFile, hv, hlen]

/-- Witness for C10 at a concrete state: two invocations with the same view,
the same active editor and the same one-error diagnostics list. -/
theorem analyze_deterministic_witness :
    sampleProvider._view = sampleProvider._view
    ∧ sampleProvider._view = some WebviewView.mk
    ∧ (_analyzeCurrentFile sampleProvider (some sampleEditor) [sampleErrorDiag]).2 =
        (_analyzeCurrentFile sampleProvider (some sampleEditor) [sampleErrorDiag]).2 :=
  ⟨rfl, by decide,
    (analyze_deterministic sampleProvider sampleProvider (some sampleEditor)
      (some sampleEditor) [sampleErrorDiag] [sampleErrorDiag] rfl
      (Or.inr ⟨sampleEditor, sampleEditor, rfl, rfl, rfl, fun _ => rfl⟩) rfl).1⟩

end ErrorAnalyzer
